import Mathlib

/-!
Verification of the SubTrack billing-date engine and notification evaluators
(`src/subtracknew123/app.py`, `src/subtracknew123/models.py`).

The date arithmetic is embedded over a proleptic-Gregorian ordinal-day count
(the structure of Python's `datetime.date.toordinal`): `datetime(y, m, d)` at
midnight maps to an absolute day number, a `datetime.now()` additionally
carries a seconds-of-day component, and `timedelta.days` is floor division of
the signed second difference by 86400, exactly as in CPython.
-/

namespace SubTrack

/-- `calendar.isleap`: Gregorian leap-year rule. -/
def isLeap (y : Nat) : Bool :=
  y % 4 == 0 && (y % 100 != 0 || y % 400 == 0)

/-- `calendar.monthrange(y, m)[1]`: the number of days in month `m` of year `y`. -/
def daysInMonth (y m : Nat) : Nat :=
  if m = 2 then (if isLeap y then 29 else 28)
  else if m = 4 ∨ m = 6 ∨ m = 9 ∨ m = 11 then 30
  else 31

/-- A calendar date, as held by a Python `datetime` (year, month 1–12, day). -/
structure Date where
  year : Nat
  month : Nat
  day : Nat
deriving DecidableEq, Repr

/-- A timestamp: a calendar date plus the seconds elapsed since midnight
(`datetime.now()` carries a time of day; sub-second precision does not affect
any quantity in scope, so seconds suffice). -/
structure DateTime where
  date : Date
  secondsOfDay : Nat
deriving DecidableEq, Repr

/-- The date is one `datetime` accepts: month in 1–12, day within the month,
year at least `datetime.MINYEAR = 1`. -/
def Date.Valid (d : Date) : Prop :=
  1 ≤ d.year ∧ 1 ≤ d.month ∧ d.month ≤ 12 ∧ 1 ≤ d.day ∧ d.day ≤ daysInMonth d.year d.month

instance : DecidablePred Date.Valid := fun d => by
  unfold Date.Valid; infer_instance

/-- A valid timestamp: valid date, time of day below 24 hours. -/
def DateTime.Valid (t : DateTime) : Prop :=
  t.date.Valid ∧ t.secondsOfDay < 86400

instance : DecidablePred DateTime.Valid := fun t => by
  unfold DateTime.Valid; infer_instance

/-- Days in all years before year `y` (proleptic Gregorian, year ≥ 1);
the year part of `date.toordinal`. -/
def daysBeforeYear (y : Nat) : Nat :=
  365 * (y - 1) + (y - 1) / 4 - (y - 1) / 100 + (y - 1) / 400

/-- Days in the months of year `y` strictly before month `m`. -/
def daysBeforeMonth (y : Nat) : Nat → Nat
  | 0 => 0
  | 1 => 0
  | m + 1 => daysBeforeMonth y m + daysInMonth y m

/-- Absolute day number of a date (the structure of `date.toordinal`):
differences of `toOrdinal` are exact calendar-day differences. -/
def toOrdinal (d : Date) : Nat :=
  daysBeforeYear d.year + daysBeforeMonth d.year d.month + d.day

/-- The year and month the payment date is resolved to, from
`get_days_until_payment` (`app.py` 377–386) and identically
`Subscription.get_next_payment_date` (`models.py` 77–88): the current month
when `now.day < billing_date`, otherwise the next month with December
wrapping to January of the following year. -/
def nextPaymentMonth (billing_date : Nat) (now : DateTime) : Nat × Nat :=
  if now.date.day < billing_date then
    (now.date.year, now.date.month)
  else
    if now.date.month = 12 then (now.date.year + 1, 1)
    else (now.date.year, now.date.month + 1)

/-- `Subscription.get_next_payment_date` (`models.py` 65–95) and the identical
inline computation in `get_days_until_payment` (`app.py` 371–394): resolve the
month, then clamp the day with `actual_day = min(billing_date, max_day)`. -/
def get_next_payment_date (billing_date : Nat) (now : DateTime) : Date :=
  let p := nextPaymentMonth billing_date now
  ⟨p.1, p.2, min billing_date (daysInMonth p.1 p.2)⟩

/-- `get_days_until_payment` (`app.py` 371–394): `(next_date - now).days`,
where `next_date` is midnight of the resolved date and `timedelta.days`
floor-divides the signed second difference by 86400. -/
def get_days_until_payment (billing_date : Nat) (now : DateTime) : Int :=
  let nd := get_next_payment_date billing_date now
  Int.fdiv
    ((toOrdinal nd : Int) * 86400 -
      ((toOrdinal now.date : Int) * 86400 + (now.secondsOfDay : Int)))
    86400

/-- A subscription record (`models.py` 51–63): display name, monthly price
and billing day-of-month. Prices are exact currency amounts. -/
structure Subscription where
  name : String
  monthly_price : ℚ
  billing_date : Nat
deriving DecidableEq, Repr

/-- A user record (`models.py` 11–29): email, monthly budget and the four
notification-preference flags, together with the user's subscriptions (the
`subscriptions` relationship). -/
structure User where
  email : String
  monthly_budget : ℚ
  payment_reminders : Bool
  budget_alerts : Bool
  monthly_summary : Bool
  new_subscription : Bool
  subscriptions : List Subscription
deriving DecidableEq, Repr

/-- `User.get_total_monthly_cost` (`models.py` 39–41): sum of the user's
subscription prices. -/
def get_total_monthly_cost (u : User) : ℚ :=
  (u.subscriptions.map (fun s => s.monthly_price)).sum

/-- An exception raised by the mail transport (`mail.send`). -/
inductive TransportError where
  | failure (msg : String)
deriving DecidableEq, Repr

/-- An exception raised by the record store (`User.query`). -/
inductive StoreError where
  | readFailure
deriving DecidableEq, Repr

/-- `send_payment_reminder` (`app.py` 73–116): attempts the transport send
inside `try`, returning `True` on success; any raised exception is caught
and reported as `False`. The outcome of the underlying `mail.send` call is
the `Except` argument. -/
def send_payment_reminder (transport : Except TransportError Unit) : Bool :=
  match transport with
  | Except.ok _ => true
  | Except.error _ => false

/-- The reminder decisions of `check_payment_reminders` (`app.py` 250–290):
for each user with `payment_reminders = True`, each subscription whose
inline-computed `days_until` equals exactly 3. -/
def payment_reminder_decisions (users : List User) (now : DateTime) :
    List (User × Subscription) :=
  (users.filter (fun u => u.payment_reminders)).flatMap
    (fun u =>
      (u.subscriptions.filter
        (fun s => get_days_until_payment s.billing_date now == 3)).map
        (fun s => (u, s)))

/-- `check_payment_reminders` (`app.py` 250–290): the nested loop over
reminder-enabled users and their subscriptions, attempting a send when
`days_until == 3` and counting only the sends that return `True`. -/
def check_payment_reminders (transport : User → Subscription → Except TransportError Unit)
    (users : List User) (now : DateTime) : Nat :=
  (users.filter (fun u => u.payment_reminders)).foldl
    (fun acc u =>
      u.subscriptions.foldl
        (fun acc2 s =>
          if get_days_until_payment s.billing_date now == 3 then
            if send_payment_reminder (transport u s) then acc2 + 1 else acc2
          else acc2)
        acc)
    0

/-- The alert decisions of `check_budget_alerts` (`app.py` 293–317): users
filtered by `budget_alerts == True` and `monthly_budget > 0`; an alert
carrying `(total_spending, overage)` is produced when
`total_spending > budget_limit`, with `overage = total_spending - budget_limit`. -/
def check_budget_alerts (users : List User) : List (User × ℚ × ℚ) :=
  (users.filter (fun u => u.budget_alerts && decide ((0 : ℚ) < u.monthly_budget))).filterMap
    (fun u =>
      if u.monthly_budget < get_total_monthly_cost u then
        some (u, get_total_monthly_cost u, get_total_monthly_cost u - u.monthly_budget)
      else none)

/-- The summary decisions of `send_all_monthly_summaries` (`app.py` 320–340):
every user with `monthly_summary = True`, unconditionally, with the payload
`(total_monthly, subscription_count)`. -/
def send_all_monthly_summaries (users : List User) : List (User × ℚ × Nat) :=
  (users.filter (fun u => u.monthly_summary)).map
    (fun u => (u, get_total_monthly_cost u, u.subscriptions.length))

/-- `get_monthly_summary` (`app.py` 397–409): monthly total, yearly total
(`monthly * 12`) and subscription count for one user's subscriptions. -/
def get_monthly_summary (subs : List Subscription) : ℚ × ℚ × Nat :=
  ((subs.map (fun s => s.monthly_price)).sum,
   (subs.map (fun s => s.monthly_price)).sum * 12,
   subs.length)

/-- The payment-reminder job as invoked by the scheduler: the body of
`check_payment_reminders` contains no `try`/`except`, so an exception raised
by the `User.query` store read is not handled inside the job. -/
def check_payment_reminders_job
    (store : Except StoreError (List User))
    (transport : User → Subscription → Except TransportError Unit)
    (now : DateTime) : Except StoreError Nat :=
  match store with
  | Except.error e => Except.error e
  | Except.ok users => Except.ok (check_payment_reminders transport users now)

/-- The budget-alert job as invoked by the scheduler (`app.py` 293–317):
no `try`/`except` around the store read. -/
def check_budget_alerts_job (store : Except StoreError (List User)) :
    Except StoreError (List (User × ℚ × ℚ)) :=
  match store with
  | Except.error e => Except.error e
  | Except.ok users => Except.ok (check_budget_alerts users)

/-- The monthly-summary job as invoked by the scheduler (`app.py` 320–340):
no `try`/`except` around the store read. -/
def send_all_monthly_summaries_job (store : Except StoreError (List User)) :
    Except StoreError (List (User × ℚ × Nat)) :=
  match store with
  | Except.error e => Except.error e
  | Except.ok users => Except.ok (send_all_monthly_summaries users)

/-! Calendar arithmetic lemmas. -/

theorem isLeap_iff (y : Nat) :
    isLeap y = true ↔ (y % 4 = 0 ∧ (y % 100 ≠ 0 ∨ y % 400 = 0)) := by
  simp [isLeap]

theorem daysInMonth_bounds (y m : Nat) :
    28 ≤ daysInMonth y m ∧ daysInMonth y m ≤ 31 := by
  unfold daysInMonth
  split_ifs <;> omega

theorem daysInMonth_twelve (y : Nat) : daysInMonth y 12 = 31 := rfl

theorem daysBeforeMonth_succ (y m : Nat) (hm : 1 ≤ m) :
    daysBeforeMonth y (m + 1) = daysBeforeMonth y m + daysInMonth y m := by
  match m, hm with
  | n + 1, _ => rfl

set_option maxHeartbeats 1000000 in
theorem daysBeforeYear_succ (y : Nat) (hy : 1 ≤ y) :
    daysBeforeYear (y + 1) = daysBeforeYear y + 365 + (if isLeap y then 1 else 0) := by
  by_cases hl : isLeap y = true
  · rw [if_pos hl]
    rw [isLeap_iff] at hl
    unfold daysBeforeYear
    omega
  · rw [if_neg hl]
    have h2 : ¬(y % 4 = 0 ∧ (y % 100 ≠ 0 ∨ y % 400 = 0)) := fun hc => hl ((isLeap_iff y).mpr hc)
    unfold daysBeforeYear
    omega

theorem daysBeforeMonth_twelve (y : Nat) :
    daysBeforeMonth y 12 = 334 + (if isLeap y then 1 else 0) := by
  cases hl : isLeap y <;> simp [daysBeforeMonth, daysInMonth, hl]

/-- The exact calendar-day difference between the resolved payment date and
now's date, in each branch of the month-selection logic. -/
theorem ordinal_delta (bd : Nat) (now : DateTime) (hv : now.date.Valid) :
    (toOrdinal (get_next_payment_date bd now) : Int) - (toOrdinal now.date : Int) =
      if now.date.day < bd then
        (min bd (daysInMonth now.date.year now.date.month) : Int) - (now.date.day : Int)
      else
        ((daysInMonth now.date.year now.date.month : Int) - (now.date.day : Int)) +
          (min bd (daysInMonth (nextPaymentMonth bd now).1 (nextPaymentMonth bd now).2) : Int) := by
  obtain ⟨hy, hm1, hm2, hd1, hd2⟩ := hv
  by_cases hlt : now.date.day < bd
  · simp only [get_next_payment_date, nextPaymentMonth, if_pos hlt, toOrdinal]
    push_cast
    omega
  · by_cases h12 : now.date.month = 12
    · have e1 : daysBeforeMonth (now.date.year + 1) 1 = 0 := rfl
      have e2 : daysInMonth (now.date.year + 1) 1 = 31 := rfl
      have e3 : daysInMonth now.date.year 12 = 31 := rfl
      have e4 := daysBeforeYear_succ now.date.year hy
      have e5 := daysBeforeMonth_twelve now.date.year
      rw [h12] at hd2
      simp [get_next_payment_date, nextPaymentMonth, hlt, h12, toOrdinal]
      cases hl : isLeap now.date.year <;> simp [hl] at e4 e5 <;> omega
    · simp [get_next_payment_date, nextPaymentMonth, hlt, h12, toOrdinal]
      rw [daysBeforeMonth_succ _ _ hm1]
      push_cast
      omega

/-- `(next_date - now).days` is the calendar-day difference minus one whenever
`now` has a positive time of day (`timedelta.days` floors). -/
theorem get_days_until_payment_eq (bd : Nat) (now : DateTime)
    (hs : now.secondsOfDay < 86400) :
    get_days_until_payment bd now =
      ((toOrdinal (get_next_payment_date bd now) : Int) - (toOrdinal now.date : Int)) -
        (if now.secondsOfDay = 0 then 0 else 1) := by
  unfold get_days_until_payment
  rw [Int.fdiv_eq_ediv _ (by norm_num)]
  rcases eq_or_ne now.secondsOfDay 0 with h | h <;> simp [h] <;> omega

/-- C1 (amended): for every valid `now` and billing day `d ∈ [1,31]`, the
computed next payment date never lies on an earlier calendar day than `now`
and `days_until ∈ [-1, 31]`; `days_until` is non-negative — and the payment
date strictly after `now` — whenever `d` fits in the current month or
`now.day ≥ d`. The unamended guarantees (`days_until ≥ 0`, date strictly
after `now`) fail when same-month clamping resolves to today. -/
theorem days_until_payment_range (bd : Nat) (now : DateTime)
    (hv : DateTime.Valid now) (hbd1 : 1 ≤ bd) (hbd2 : bd ≤ 31) :
    -1 ≤ get_days_until_payment bd now ∧
    get_days_until_payment bd now ≤ 31 ∧
    (toOrdinal now.date : Int) ≤ (toOrdinal (get_next_payment_date bd now) : Int) ∧
    ((bd ≤ daysInMonth now.date.year now.date.month ∨ bd ≤ now.date.day) →
      0 ≤ get_days_until_payment bd now ∧
      (toOrdinal now.date : Int) * 86400 + (now.secondsOfDay : Int) <
        (toOrdinal (get_next_payment_date bd now) : Int) * 86400) := by
  obtain ⟨hvd, hs⟩ := hv
  have hδ := ordinal_delta bd now hvd
  have heq := get_days_until_payment_eq bd now hs
  obtain ⟨hy, hm1, hm2, hd1, hd2⟩ := hvd
  have hb1 := daysInMonth_bounds now.date.year now.date.month
  have hb2 := daysInMonth_bounds (nextPaymentMonth bd now).1 (nextPaymentMonth bd now).2
  by_cases hlt : now.date.day < bd <;> simp [hlt] at hδ <;> omega

/-- Witness for C1 (amended) at billing day 15, now = 2024-01-10 09:00. -/
theorem days_until_payment_range_witness :
    -1 ≤ get_days_until_payment 15 ⟨⟨2024, 1, 10⟩, 32400⟩ ∧
    get_days_until_payment 15 ⟨⟨2024, 1, 10⟩, 32400⟩ ≤ 31 ∧
    (toOrdinal (⟨2024, 1, 10⟩ : Date) : Int) ≤
      (toOrdinal (get_next_payment_date 15 ⟨⟨2024, 1, 10⟩, 32400⟩) : Int) ∧
    ((15 ≤ daysInMonth 2024 1 ∨ 15 ≤ 10) →
      0 ≤ get_days_until_payment 15 ⟨⟨2024, 1, 10⟩, 32400⟩ ∧
      (toOrdinal (⟨2024, 1, 10⟩ : Date) : Int) * 86400 + (32400 : Int) <
        (toOrdinal (get_next_payment_date 15 ⟨⟨2024, 1, 10⟩, 32400⟩) : Int) * 86400) :=
  days_until_payment_range 15 ⟨⟨2024, 1, 10⟩, 32400⟩ (by decide) (by decide) (by decide)

/-- C1 counterexample: at now = 2023-02-28 09:00 with billing day 30, the
same-month clamp resolves the payment date to 2023-02-28 itself, which is
before `now`, and `get_days_until_payment` returns `-1` — refuting the
claimed non-negativity and strict futurity. -/
theorem days_until_nonneg_counterexample :
    DateTime.Valid ⟨⟨2023, 2, 28⟩, 32400⟩ ∧
    get_days_until_payment 30 ⟨⟨2023, 2, 28⟩, 32400⟩ = -1 ∧
    (toOrdinal (get_next_payment_date 30 ⟨⟨2023, 2, 28⟩, 32400⟩) : Int) * 86400 <
      (toOrdinal (⟨⟨2023, 2, 28⟩, 32400⟩ : DateTime).date : Int) * 86400 + 32400 := by
  refine ⟨by decide, by decide, by decide⟩

/-- C2: the resolved month is the current month exactly when
`now.day < billing_day`, and otherwise the immediately following month
(December wrapping to January of the next year); `now.day = billing_day`
advances to the next month, and the month index never moves by more than
one. -/
theorem next_payment_month_selection (bd : Nat) (now : DateTime)
    (hv : now.date.Valid) :
    (((get_next_payment_date bd now).year = now.date.year ∧
        (get_next_payment_date bd now).month = now.date.month) ↔ now.date.day < bd) ∧
    (now.date.day < bd →
      12 * (get_next_payment_date bd now).year + (get_next_payment_date bd now).month =
        12 * now.date.year + now.date.month) ∧
    (¬ now.date.day < bd →
      12 * (get_next_payment_date bd now).year + (get_next_payment_date bd now).month =
        12 * now.date.year + now.date.month + 1) ∧
    (now.date.day = bd →
      12 * (get_next_payment_date bd now).year + (get_next_payment_date bd now).month =
        12 * now.date.year + now.date.month + 1) ∧
    (now.date.month = 12 → ¬ now.date.day < bd →
      (get_next_payment_date bd now).year = now.date.year + 1 ∧
        (get_next_payment_date bd now).month = 1) ∧
    (12 * now.date.year + now.date.month ≤
        12 * (get_next_payment_date bd now).year + (get_next_payment_date bd now).month ∧
      12 * (get_next_payment_date bd now).year + (get_next_payment_date bd now).month ≤
        12 * now.date.year + now.date.month + 1) := by
  obtain ⟨hy, hm1, hm2, hd1, hd2⟩ := hv
  by_cases hlt : now.date.day < bd <;> by_cases h12 : now.date.month = 12 <;>
    simp [get_next_payment_date, nextPaymentMonth, hlt, h12] <;> omega

/-- Witness for C2 at billing day 10, now = 2024-12-15 09:00 (year wrap). -/
theorem next_payment_month_selection_witness :
    (((get_next_payment_date 10 ⟨⟨2024, 12, 15⟩, 32400⟩).year = 2024 ∧
        (get_next_payment_date 10 ⟨⟨2024, 12, 15⟩, 32400⟩).month = 12) ↔ 15 < 10) ∧
    (15 < 10 →
      12 * (get_next_payment_date 10 ⟨⟨2024, 12, 15⟩, 32400⟩).year +
          (get_next_payment_date 10 ⟨⟨2024, 12, 15⟩, 32400⟩).month = 12 * 2024 + 12) ∧
    (¬ (15 : Nat) < 10 →
      12 * (get_next_payment_date 10 ⟨⟨2024, 12, 15⟩, 32400⟩).year +
          (get_next_payment_date 10 ⟨⟨2024, 12, 15⟩, 32400⟩).month = 12 * 2024 + 12 + 1) ∧
    ((15 : Nat) = 10 →
      12 * (get_next_payment_date 10 ⟨⟨2024, 12, 15⟩, 32400⟩).year +
          (get_next_payment_date 10 ⟨⟨2024, 12, 15⟩, 32400⟩).month = 12 * 2024 + 12 + 1) ∧
    ((12 : Nat) = 12 → ¬ (15 : Nat) < 10 →
      (get_next_payment_date 10 ⟨⟨2024, 12, 15⟩, 32400⟩).year = 2024 + 1 ∧
        (get_next_payment_date 10 ⟨⟨2024, 12, 15⟩, 32400⟩).month = 1) ∧
    (12 * 2024 + 12 ≤
        12 * (get_next_payment_date 10 ⟨⟨2024, 12, 15⟩, 32400⟩).year +
          (get_next_payment_date 10 ⟨⟨2024, 12, 15⟩, 32400⟩).month ∧
      12 * (get_next_payment_date 10 ⟨⟨2024, 12, 15⟩, 32400⟩).year +
          (get_next_payment_date 10 ⟨⟨2024, 12, 15⟩, 32400⟩).month ≤ 12 * 2024 + 12 + 1) :=
  next_payment_month_selection 10 ⟨⟨2024, 12, 15⟩, 32400⟩ (by decide)

/-- C3: the resolved day-of-month is `min(billing_day, days_in_resolved_month)`
with exact leap-year calendar math: billing day 31 resolves to Feb 29 in 2024
and Feb 28 in 2023. -/
theorem next_payment_day_clamped :
    (∀ (bd : Nat) (now : DateTime),
      (get_next_payment_date bd now).day =
        min bd (daysInMonth (get_next_payment_date bd now).year
          (get_next_payment_date bd now).month)) ∧
    get_next_payment_date 31 ⟨⟨2024, 2, 15⟩, 32400⟩ = ⟨2024, 2, 29⟩ ∧
    get_next_payment_date 31 ⟨⟨2023, 2, 15⟩, 32400⟩ = ⟨2023, 2, 28⟩ ∧
    isLeap 2024 = true ∧ isLeap 2023 = false ∧
    daysInMonth 2024 2 = 29 ∧ daysInMonth 2023 2 = 28 :=
  ⟨fun bd now => rfl, by decide, by decide, by decide, by decide, by decide, by decide⟩

/-- C9: with a positive time of day, `days_until` is the calendar-day
difference minus one (the payment date is constructed at midnight and the
duration truncates), so at the scheduled 09:00 run `days_until = 3` holds
exactly when the payment date is 4 calendar days after the run date. -/
theorem days_until_is_calendar_diff_minus_one (bd : Nat) (now : DateTime)
    (hv : DateTime.Valid now) (hpos : 0 < now.secondsOfDay) :
    get_days_until_payment bd now =
      ((toOrdinal (get_next_payment_date bd now) : Int) - (toOrdinal now.date : Int)) - 1 ∧
    (get_days_until_payment bd now = 3 ↔
      (toOrdinal (get_next_payment_date bd now) : Int) - (toOrdinal now.date : Int) = 4) := by
  have heq := get_days_until_payment_eq bd now hv.2
  rw [if_neg (by omega)] at heq
  exact ⟨heq, by omega⟩

/-- Witness for C9 at billing day 20, now = 2024-03-05 09:00. -/
theorem days_until_is_calendar_diff_minus_one_witness :
    get_days_until_payment 20 ⟨⟨2024, 3, 5⟩, 32400⟩ =
      ((toOrdinal (get_next_payment_date 20 ⟨⟨2024, 3, 5⟩, 32400⟩) : Int) -
        (toOrdinal (⟨2024, 3, 5⟩ : Date) : Int)) - 1 ∧
    (get_days_until_payment 20 ⟨⟨2024, 3, 5⟩, 32400⟩ = 3 ↔
      (toOrdinal (get_next_payment_date 20 ⟨⟨2024, 3, 5⟩, 32400⟩) : Int) -
        (toOrdinal (⟨2024, 3, 5⟩ : Date) : Int) = 4) :=
  days_until_is_calendar_diff_minus_one 20 ⟨⟨2024, 3, 5⟩, 32400⟩ (by decide) (by decide)

/-- The inner subscription loop of `check_payment_reminders` counts exactly
the due subscriptions whose send succeeds, on top of the incoming
accumulator. -/
theorem reminder_inner_count (transport : User → Subscription → Except TransportError Unit)
    (now : DateTime) (u : User) :
    ∀ (subs : List Subscription) (acc : Nat),
      subs.foldl
        (fun acc2 s =>
          if get_days_until_payment s.billing_date now == 3 then
            if send_payment_reminder (transport u s) then acc2 + 1 else acc2
          else acc2)
        acc =
      acc + (((subs.filter
          (fun s => get_days_until_payment s.billing_date now == 3)).map
          (fun s => (u, s))).filter
          (fun p => send_payment_reminder (transport p.1 p.2))).length := by
  intro subs
  induction subs with
  | nil => intro acc; simp
  | cons s rest ih =>
    intro acc
    rw [List.foldl_cons, ih]
    by_cases h1 : (get_days_until_payment s.billing_date now == 3) = true <;>
      by_cases h2 : send_payment_reminder (transport u s) = true <;>
        · simp [h1, h2]
          try omega

/-- The outer user loop of `check_payment_reminders` counts exactly the
decisions whose send succeeds, on top of the incoming accumulator. -/
theorem reminder_outer_count (transport : User → Subscription → Except TransportError Unit)
    (now : DateTime) :
    ∀ (ul : List User) (acc : Nat),
      ul.foldl
        (fun acc u =>
          u.subscriptions.foldl
            (fun acc2 s =>
              if get_days_until_payment s.billing_date now == 3 then
                if send_payment_reminder (transport u s) then acc2 + 1 else acc2
              else acc2)
            acc)
        acc =
      acc + ((ul.flatMap
          (fun u =>
            (u.subscriptions.filter
              (fun s => get_days_until_payment s.billing_date now == 3)).map
              (fun s => (u, s)))).filter
          (fun p => send_payment_reminder (transport p.1 p.2))).length := by
  intro ul
  induction ul with
  | nil => intro acc; simp
  | cons u rest ih =>
    intro acc
    rw [List.foldl_cons, ih, reminder_inner_count]
    rw [List.flatMap_cons, List.filter_append, List.length_append]
    omega

/-- C4: a reminder decision is produced for `(u, s)` exactly when `u` is a
stored user with `payment_reminders = true`, `s` is one of `u`'s
subscriptions, and the computed `days_until` equals exactly 3; in
particular no decision arises for any other `days_until` value nor for a
user with `payment_reminders = false`. -/
theorem payment_reminder_fires_iff (users : List User) (now : DateTime)
    (u : User) (s : Subscription) :
    (u, s) ∈ payment_reminder_decisions users now ↔
      (u ∈ users ∧ u.payment_reminders = true ∧ s ∈ u.subscriptions ∧
        get_days_until_payment s.billing_date now = 3) := by
  simp [payment_reminder_decisions, List.mem_flatMap, List.mem_filter, List.mem_map]
  aesop

/-- C5: a budget alert for `u` carrying `(total, overage)` is produced
exactly when `u` has `budget_alerts = true`, a positive budget, and
`total > budget`, with `overage = total - budget`; concretely, budget 100
with total 120 alerts with overage 20 (and by the equivalence, budget 0 or
`total ≤ budget` never alerts). -/
theorem budget_alert_fires_iff :
    (∀ (users : List User) (u : User) (t ov : ℚ),
      (u, t, ov) ∈ check_budget_alerts users ↔
        (u ∈ users ∧ u.budget_alerts = true ∧ 0 < u.monthly_budget ∧
          t = get_total_monthly_cost u ∧ u.monthly_budget < get_total_monthly_cost u ∧
          ov = get_total_monthly_cost u - u.monthly_budget)) ∧
    ((⟨"user", 100, true, true, true, true, [⟨"svc", 120, 5⟩]⟩ : User), (120 : ℚ), (20 : ℚ)) ∈
      check_budget_alerts [⟨"user", 100, true, true, true, true, [⟨"svc", 120, 5⟩]⟩] := by
  constructor
  · intro users u t ov
    simp only [check_budget_alerts, List.mem_filterMap, List.mem_filter,
      Bool.and_eq_true, decide_eq_true_eq]
    constructor
    · rintro ⟨v, ⟨⟨hv, ha, hb⟩, hsome⟩⟩
      by_cases hov : v.monthly_budget < get_total_monthly_cost v
      · rw [if_pos hov] at hsome
        simp only [Option.some.injEq, Prod.mk.injEq] at hsome
        obtain ⟨hvu, htv, hov2⟩ := hsome
        subst hvu
        exact ⟨hv, ha, hb, htv.symm, hov, hov2.symm⟩
      · rw [if_neg hov] at hsome
        cases hsome
    · rintro ⟨hu, ha, hb, ht, hov, ho⟩
      exact ⟨u, ⟨⟨hu, ha, hb⟩, by rw [if_pos hov, ht, ho]⟩⟩
  · norm_num [check_budget_alerts, get_total_monthly_cost, List.filter, List.filterMap]

/-- C6: a summary decision exists for exactly the users with
`monthly_summary = true` — no further condition — and its payload is the
sum of the user's subscription prices and the subscription count; the
dashboard's `get_monthly_summary` likewise reports that sum, the yearly
total `monthly * 12`, and the count. -/
theorem monthly_summary_unconditional :
    (∀ (users : List User) (x : User × ℚ × Nat),
      x ∈ send_all_monthly_summaries users ↔
        (x.1 ∈ users ∧ x.1.monthly_summary = true ∧
          x.2.1 = get_total_monthly_cost x.1 ∧ x.2.2 = x.1.subscriptions.length)) ∧
    (∀ u : User,
      get_total_monthly_cost u = (u.subscriptions.map (fun s => s.monthly_price)).sum) ∧
    (∀ subs : List Subscription,
      (get_monthly_summary subs).1 = (subs.map (fun s => s.monthly_price)).sum ∧
      (get_monthly_summary subs).2.1 = (get_monthly_summary subs).1 * 12 ∧
      (get_monthly_summary subs).2.2 = subs.length) := by
  refine ⟨?_, fun u => rfl, fun subs => ⟨rfl, rfl, rfl⟩⟩
  intro users x
  obtain ⟨a, b, c⟩ := x
  simp only [send_all_monthly_summaries, List.mem_map, List.mem_filter]
  constructor
  · rintro ⟨v, ⟨hv, hms⟩, heq⟩
    simp only [Prod.mk.injEq] at heq
    obtain ⟨hva, hvb, hvc⟩ := heq
    subst hva
    exact ⟨hv, hms, hvb.symm, hvc.symm⟩
  · rintro ⟨ha, hms, hb, hc⟩
    exact ⟨a, ⟨ha, hms⟩, by rw [hb, hc]⟩

/-- C7: the dispatch boundary never propagates a transport exception — a
raising send is reported as `false`, a successful one as `true` — and the
reminder batch counts exactly the due decisions whose send succeeded,
processing every decision regardless of earlier failures. -/
theorem dispatch_never_raises :
    (∀ e, send_payment_reminder (Except.error e) = false) ∧
    (send_payment_reminder (Except.ok ()) = true) ∧
    (∀ (transport : User → Subscription → Except TransportError Unit)
        (users : List User) (now : DateTime),
      check_payment_reminders transport users now =
        ((payment_reminder_decisions users now).filter
          (fun p => send_payment_reminder (transport p.1 p.2))).length) := by
  refine ⟨fun e => rfl, rfl, fun transport users now => ?_⟩
  unfold check_payment_reminders payment_reminder_decisions
  rw [reminder_outer_count]
  omega

/-- C8 counterexample: with a failing store read, each job function
evaluates to the store error itself — the exception propagates out of the
job function rather than being caught inside it. -/
theorem store_error_reaches_caller :
    check_payment_reminders_job (Except.error StoreError.readFailure)
        (fun _ _ => Except.ok ()) ⟨⟨2024, 1, 1⟩, 32400⟩ =
      Except.error StoreError.readFailure ∧
    check_budget_alerts_job (Except.error StoreError.readFailure) =
      Except.error StoreError.readFailure ∧
    send_all_monthly_summaries_job (Except.error StoreError.readFailure) =
      Except.error StoreError.readFailure :=
  ⟨rfl, rfl, rfl⟩

/-- C8 (amended): the scheduled job functions contain no handler for a
store-read failure — the error propagates out of the job unchanged — while
a successful read runs the evaluator to completion. -/
theorem store_error_propagation :
    (∀ (e : StoreError) (transport : User → Subscription → Except TransportError Unit)
        (now : DateTime),
      check_payment_reminders_job (Except.error e) transport now = Except.error e) ∧
    (∀ e : StoreError, check_budget_alerts_job (Except.error e) = Except.error e) ∧
    (∀ e : StoreError, send_all_monthly_summaries_job (Except.error e) = Except.error e) ∧
    (∀ (users : List User) (transport : User → Subscription → Except TransportError Unit)
        (now : DateTime),
      check_payment_reminders_job (Except.ok users) transport now =
        Except.ok (check_payment_reminders transport users now)) ∧
    (∀ users : List User,
      check_budget_alerts_job (Except.ok users) = Except.ok (check_budget_alerts users)) ∧
    (∀ users : List User,
      send_all_monthly_summaries_job (Except.ok users) =
        Except.ok (send_all_monthly_summaries users)) :=
  ⟨fun _ _ _ => rfl, fun _ => rfl, fun _ => rfl, fun _ _ _ => rfl, fun _ => rfl, fun _ => rfl⟩

/-- C10: a user with `monthly_summary = true` and no subscriptions still
receives a summary decision, with total 0 and count 0. -/
theorem monthly_summary_includes_empty (users : List User) (u : User)
    (hu : u ∈ users) (hms : u.monthly_summary = true) (hempty : u.subscriptions = []) :
    (u, (0 : ℚ), (0 : Nat)) ∈ send_all_monthly_summaries users := by
  unfold send_all_monthly_summaries
  have h0 : get_total_monthly_cost u = 0 := by simp [get_total_monthly_cost, hempty]
  refine List.mem_map.mpr ⟨u, List.mem_filter.mpr ⟨hu, hms⟩, ?_⟩
  rw [h0, hempty]
  rfl

/-- Witness for C10 with a concrete subscription-free user. -/
theorem monthly_summary_includes_empty_witness :
    ((⟨"empty", 0, true, true, true, true, []⟩ : User), (0 : ℚ), (0 : Nat)) ∈
      send_all_monthly_summaries [⟨"empty", 0, true, true, true, true, []⟩] :=
  monthly_summary_includes_empty _ _ (List.mem_singleton.mpr rfl) rfl rfl

end SubTrack
